import Mathlib

/-!
# Light-Media: the browser-side controller `static/script.js`

A shallow embedding of the class `LightMediaPlayer` and theorems about it.

Modelling conventions.
* A JavaScript number that is always finite (a position, a volume, a pixel coordinate) is a
  rational (`ℚ`); the duration of a media element, which may also be `NaN` or infinite, is a
  `JSNumber`. Rounding of floating-point arithmetic is not modelled.
* A method that can end in an exception returns `Except JSError`.
* The controller's fields and the parts of `document` it touches are the fields of `Page`.
  Calls that ask the platform for something (`requestFullscreen`, `exitFullscreen`) are
  appended to `Page.requests`; the platform answers them later, outside the methods.
* An event handler is a function to the list of calls it makes, in program order.
-/

namespace LightMedia

/-! ## Data model -/

/-- An exception thrown by the JavaScript runtime or by the platform. -/
inductive JSError where
  | SyntaxError
  | TypeError
  | DOMException
deriving DecidableEq, Repr

/-- A JavaScript number that need not be finite. -/
inductive JSNumber where
  | nan
  | posInf
  | negInf
  | finite (value : ℚ)
deriving DecidableEq

/-- Truthiness of a number: neither `NaN` nor zero. -/
def JSNumber.truthy : JSNumber → Bool
  | JSNumber.nan => false
  | JSNumber.posInf => true
  | JSNumber.negInf => true
  | JSNumber.finite value => decide (value ≠ 0)

/-- The product `r * n` of a finite number `r` and a number `n`: zero times an infinity is
`NaN`. -/
def JSNumber.times (r : ℚ) : JSNumber → JSNumber
  | JSNumber.nan => JSNumber.nan
  | JSNumber.posInf =>
    if r = 0 then JSNumber.nan else if 0 < r then JSNumber.posInf else JSNumber.negInf
  | JSNumber.negInf =>
    if r = 0 then JSNumber.nan else if 0 < r then JSNumber.negInf else JSNumber.posInf
  | JSNumber.finite value => JSNumber.finite (r * value)

/-- The properties of the `<video>`/`<audio>` element the controller reads and writes.
`duration` is `NaN` while no media data is available and `+Infinity` for an unbounded
stream. -/
structure MediaElement where
  paused : Bool
  currentTime : ℚ
  volume : ℚ
  muted : Bool
  duration : JSNumber
deriving DecidableEq

/-- What the platform maintains of a media element: the playback position is not negative
and not past the end of the medium. -/
def MediaElement.inRange (m : MediaElement) : Bool :=
  decide (0 ≤ m.currentTime) &&
    match m.duration with
    | JSNumber.nan => true
    | JSNumber.posInf => true
    | JSNumber.negInf => false
    | JSNumber.finite d => decide (m.currentTime ≤ d)

/-- Assignment to `currentTime`, an attribute of type `double`: a value that is not finite is
refused with a `TypeError` and the element stays as it was. -/
def setCurrentTime (value : JSNumber) (m : MediaElement) : Except JSError MediaElement :=
  match value with
  | JSNumber.finite t => Except.ok { m with currentTime := t }
  | _ => Except.error JSError.TypeError

/-- A call on `document` whose effect is carried out by the platform. -/
inductive Request where
  | requestFullscreen
  | exitFullscreen
deriving DecidableEq, Repr

/-- The controller instance (`currentPlayer`, `isFullscreen`, `lastTouchTime`) together with
the fullscreen state of the document. `fullscreenElement` is `true` when
`document.fullscreenElement` is not null; `lastTouchTime = none` is `undefined`. -/
structure Page where
  currentPlayer : Option MediaElement
  isFullscreen : Bool
  lastTouchTime : Option ℤ
  fullscreenElement : Bool
  requests : List Request
deriving DecidableEq

/-! ## Player control methods (script.js 251-295) -/

/-- `togglePlay()`: `play()` clears `paused`, `pause()` sets it. -/
def togglePlay (w : Page) : Page :=
  match w.currentPlayer with
  | some p =>
    if p.paused then { w with currentPlayer := some { p with paused := false } }
    else { w with currentPlayer := some { p with paused := true } }
  | none => w

/-- `skip(seconds)`: `currentTime += seconds` (the value assigned; the element's own clamping
is the platform's). -/
def skip (seconds : ℚ) (w : Page) : Page :=
  match w.currentPlayer with
  | some p => { w with currentPlayer := some { p with currentTime := p.currentTime + seconds } }
  | none => w

/-- `adjustVolume(delta)`. -/
def adjustVolume (delta : ℚ) (w : Page) : Page :=
  match w.currentPlayer with
  | some p =>
    { w with currentPlayer := some { p with volume := max 0 (min 1 (p.volume + delta)) } }
  | none => w

/-- `toggleMute()`. -/
def toggleMute (w : Page) : Page :=
  match w.currentPlayer with
  | some p => { w with currentPlayer := some { p with muted := !p.muted } }
  | none => w

/-- `seekToPercentage(percentage)`: guarded by `this.currentPlayer && this.currentPlayer.duration`. -/
def seekToPercentage (percentage : ℚ) (w : Page) : Except JSError Page :=
  match w.currentPlayer with
  | some p =>
    if p.duration.truthy then
      match setCurrentTime (JSNumber.times (percentage / 100) p.duration) p with
      | Except.ok p1 => Except.ok { w with currentPlayer := some p1 }
      | Except.error err => Except.error err
    else Except.ok w
  | none => Except.ok w

/-- `toggleFullscreen()`: tests `document.fullscreenElement` only. -/
def toggleFullscreen (w : Page) : Page :=
  if !w.fullscreenElement then
    { w with requests := w.requests ++ [Request.requestFullscreen], isFullscreen := true }
  else
    { w with requests := w.requests ++ [Request.exitFullscreen], isFullscreen := false }

/-- The volume of the active player, if any. -/
def volumeOf (w : Page) : Option ℚ := w.currentPlayer.map MediaElement.volume

/-- The playback position of the active player, if any. -/
def currentTimeOf (w : Page) : Option ℚ := w.currentPlayer.map MediaElement.currentTime

/-- Run `adjustVolume` once for every delta of the list, in order. -/
def adjustVolumes (deltas : List ℚ) (w : Page) : Page :=
  deltas.foldl (fun acc d => adjustVolume d acc) w

/-! ## Event handlers (script.js 39-155) -/

/-- A call made by an event handler: on the event (`preventDefault`), on the search input
(`focus`) or on the controller itself. -/
inductive Call where
  | preventDefault
  | focus
  | togglePlay
  | skip (seconds : ℚ)
  | adjustVolume (delta : ℚ)
  | toggleFullscreen
  | toggleMute
  | seekToPercentage (percentage : ℚ)
deriving DecidableEq

/-- Carry out one call on the page. `preventDefault` and `focus` do not touch `Page`; a call
that ends in an exception leaves the page as it was. -/
def perform (w : Page) : Call → Page
  | .preventDefault => w
  | .focus => w
  | .togglePlay => togglePlay w
  | .skip seconds => skip seconds w
  | .adjustVolume delta => adjustVolume delta w
  | .toggleFullscreen => toggleFullscreen w
  | .toggleMute => toggleMute w
  | .seekToPercentage percentage =>
    match seekToPercentage percentage w with
    | Except.ok w1 => w1
    | Except.error _ => w

/-- `parseInt` on a string of decimal digits. -/
def parseInt (key : String) : ℕ :=
  key.data.foldl (fun n c => 10 * n + (c.toNat - 48)) 0

/-- `handlePlayerShortcuts(e)`: the calls made for `e.key`. -/
def handlePlayerShortcuts (key : String) : List Call :=
  if key = " " then [Call.preventDefault, Call.togglePlay]
  else if key = "ArrowLeft" then [Call.preventDefault, Call.skip (-10)]
  else if key = "ArrowRight" then [Call.preventDefault, Call.skip 10]
  else if key = "ArrowUp" then [Call.preventDefault, Call.adjustVolume (1 / 10)]
  else if key = "ArrowDown" then [Call.preventDefault, Call.adjustVolume (-(1 / 10))]
  else if key = "f" ∨ key = "F" then [Call.preventDefault, Call.toggleFullscreen]
  else if key = "m" ∨ key = "M" then [Call.preventDefault, Call.toggleMute]
  else if key ∈ ["0", "1", "2", "3", "4", "5", "6", "7", "8", "9"] then
    [Call.preventDefault, Call.seekToPercentage ((parseInt key : ℚ) * 10)]
  else []

/-- The `keydown` listener installed by `setupKeyboardShortcuts()`. `searchInput` tells
whether the element `search-input` exists. -/
def onKeydown (searchInput : Bool) (w : Page) (key : String) : List Call :=
  (if key = "/" then
    Call.preventDefault :: (if searchInput then [Call.focus] else [])
  else [])
  ++ (if w.currentPlayer.isSome then handlePlayerShortcuts key else [])

/-- The closure variables of `setupTouchGestures()`. -/
structure Gesture where
  touchStartX : ℚ
  touchStartY : ℚ
  touchStartTime : ℤ
deriving DecidableEq

/-- The `touchstart` listener; `now` is its reading of `Date.now()`. -/
def onTouchstart (clientX clientY : ℚ) (now : ℤ) : Gesture :=
  { touchStartX := clientX, touchStartY := clientY, touchStartTime := now }

/-- A `touchend` event with the three readings of `Date.now()` its listener makes:
`touchEndTime` (line 119), `nowCheck` (line 149) and `nowStore` (line 152). -/
structure TouchEnd where
  clientX : ℚ
  clientY : ℚ
  touchEndTime : ℤ
  nowCheck : ℤ
  nowStore : ℤ
deriving DecidableEq

/-- Horizontal displacement `diffX`. -/
def diffX (g : Gesture) (e : TouchEnd) : ℚ := e.clientX - g.touchStartX

/-- Vertical displacement `diffY`. -/
def diffY (g : Gesture) (e : TouchEnd) : ℚ := e.clientY - g.touchStartY

/-- The duration of the touch (`touchEndTime - touchStartTime`). -/
def touchDuration (g : Gesture) (e : TouchEnd) : ℤ := e.touchEndTime - g.touchStartTime

/-- The test `this.lastTouchTime && Date.now() - this.lastTouchTime < 300`. -/
def recentTap (lastTouchTime : Option ℤ) (now : ℤ) : Bool :=
  match lastTouchTime with
  | none => false
  | some t => decide (t ≠ 0) && decide (now - t < 300)

/-- The calls made by the `touchend` listener, in program order. -/
def touchendCalls (g : Gesture) (w : Page) (e : TouchEnd) : List Call :=
  (if |diffX g e| > 50 ∧ |diffY g e| < 50 ∧ touchDuration g e < 300 then
    if w.currentPlayer.isSome then
      if diffX g e > 0 then [Call.skip 10] else [Call.skip (-10)]
    else []
  else [])
  ++ (if |diffY g e| > 50 ∧ |diffX g e| < 50 ∧ touchDuration g e < 300 then
    if w.currentPlayer.isSome then
      if diffY g e > 0 then [Call.adjustVolume (-(1 / 10))] else [Call.adjustVolume (1 / 10)]
    else []
  else [])
  ++ (if touchDuration g e < 300 then
    if recentTap w.lastTouchTime e.nowCheck then [Call.togglePlay] else []
  else [])

/-- The `touchend` listener as a step on the page: make the calls, then record the tap. -/
def onTouchend (g : Gesture) (e : TouchEnd) (w : Page) : Page :=
  let w1 := (touchendCalls g w e).foldl perform w
  if touchDuration g e < 300 then { w1 with lastTouchTime := some e.nowStore } else w1

/-- A whole touch: `touchstart` at `(x0, y0)` at time `t0`, then its `touchend`. -/
structure Touch where
  x0 : ℚ
  y0 : ℚ
  t0 : ℤ
  release : TouchEnd
deriving DecidableEq

/-- Handle one whole touch. -/
def onTouch (w : Page) (t : Touch) : Page :=
  onTouchend (onTouchstart t.x0 t.y0 t.t0) t.release w

/-- The calls made at the `touchend` of the last touch of `ts ++ [t]`, the earlier touches
having been handled first. -/
def callsAfter (w : Page) (ts : List Touch) (t : Touch) : List Call :=
  touchendCalls (onTouchstart t.x0 t.y0 t.t0) (ts.foldl onTouch w) t.release

/-! ## Local storage and JSON (script.js 388-426)

`localStorage` holds strings. A string read through `JSON.parse` is kept up to what
`JSON.parse` makes of it: the empty string, a non-empty string that is not well-formed JSON,
or a well-formed JSON text, identified with the value it denotes. `JSON.stringify` yields the
text of a value, and `JSON.parse` reads that value back. Under `favorites` the well-formed
texts are those of objects with boolean property values, under `playlist` those of arrays of
strings; JSON texts of any other shape are not modelled. -/

/-- A stored string, as seen by `JSON.parse`. -/
inductive Text (α : Type) where
  | empty
  | malformed
  | json (value : α)
deriving DecidableEq

/-- The own properties of the object stored under `favorites`: file path and value. -/
abbrev Favorites := List (String × Bool)

/-- The array stored under `playlist`. -/
abbrev Playlist := List String

/-- The three keys of `localStorage` the controller uses; `none` is an absent key
(`getItem` returns `null`). -/
structure LocalStorage where
  viewPreference : Option String
  favorites : Option (Text Favorites)
  playlist : Option (Text Playlist)
deriving DecidableEq

/-- `JSON.parse(text)`: a `SyntaxError` unless the text is well-formed JSON. -/
def JSON.parse {α : Type} : Text α → Except JSError α
  | Text.empty => Except.error JSError.SyntaxError
  | Text.malformed => Except.error JSError.SyntaxError
  | Text.json value => Except.ok value

/-- `JSON.stringify(value)`. -/
def JSON.stringify {α : Type} (value : α) : Text α := Text.json value

/-- `item || literal`, where `literal` is the JSON text of `dflt`: `null` and the empty
string are falsy, every other string is truthy. -/
def orDefault {α : Type} (item : Option (Text α)) (dflt : α) : Text α :=
  match item with
  | none => Text.json dflt
  | some Text.empty => Text.json dflt
  | some text => text

/-- The names of the members of `Object.prototype`, which every object made by `JSON.parse`
inherits. Their values are functions (for `__proto__`, the prototype object): all truthy. -/
def objectPrototypeKeys : List String :=
  ["constructor", "__defineGetter__", "__defineSetter__", "hasOwnProperty",
   "__lookupGetter__", "__lookupSetter__", "isPrototypeOf", "propertyIsEnumerable",
   "toString", "valueOf", "__proto__", "toLocaleString"]

/-- Truthiness of `favorites[filePath]`: the own property if there is one, else the member
inherited from `Object.prototype`, else `undefined`. -/
def truthyProp (favorites : Favorites) (filePath : String) : Bool :=
  match favorites.lookup filePath with
  | some value => value
  | none => objectPrototypeKeys.contains filePath

/-- `delete favorites[filePath]`: removes the own property, if any. -/
def deleteProp (favorites : Favorites) (filePath : String) : Favorites :=
  favorites.filter (fun kv => kv.1 ≠ filePath)

/-- `favorites[filePath] = value`: overwrites the own property, or adds it. -/
def setProp (favorites : Favorites) (filePath : String) (value : Bool) : Favorites :=
  if favorites.any (fun kv => kv.1 == filePath) then
    favorites.map (fun kv => if kv.1 = filePath then (filePath, value) else kv)
  else favorites ++ [(filePath, value)]

/-- `classList.add(token)`. -/
def classListAdd (classList : List String) (token : String) : List String :=
  if token ∈ classList then classList else classList ++ [token]

/-- `classList.remove(token)`. -/
def classListRemove (classList : List String) (token : String) : List String :=
  classList.filter (fun c => c ≠ token)

/-- The favorite button of a card: what `updateFavoriteUI` writes. -/
structure FavoriteBtn where
  innerHTML : String
  classList : List String
deriving DecidableEq

/-- `updateFavoriteUI(filePath)`. `queried` is what the call
`document.querySelector('[data-file="' + filePath + '"]')` of line 404 does: it returns an
element or `null`, or it throws, which it does when the path, spliced in unescaped, leaves no
valid selector (a path with a double quote, say). The result is the button as redrawn. -/
def updateFavoriteUI (filePath : String) (ls : LocalStorage)
    (queried : Except JSError (Option FavoriteBtn)) : Except JSError (Option FavoriteBtn) := do
  let favorites ← JSON.parse (orDefault ls.favorites [])
  let favoriteBtn ← queried
  match favoriteBtn with
  | some btn =>
    if truthyProp favorites filePath then
      pure (some { innerHTML := "<i class=\"fas fa-heart\"></i>",
                   classList := classListAdd btn.classList "favorited" })
    else
      pure (some { innerHTML := "<i class=\"far fa-heart\"></i>",
                   classList := classListRemove btn.classList "favorited" })
  | none => pure none

/-- `toggleFavorite(filePath)`: the storage the call leaves behind, and how the call ends
(the button as redrawn, or the exception thrown). An exception of `JSON.parse` comes before
the write; one of `updateFavoriteUI` comes after it. -/
def toggleFavorite (filePath : String) (ls : LocalStorage)
    (queried : Except JSError (Option FavoriteBtn)) :
    LocalStorage × Except JSError (Option FavoriteBtn) :=
  match JSON.parse (orDefault ls.favorites []) with
  | Except.error err => (ls, Except.error err)
  | Except.ok favorites =>
    let favorites :=
      if truthyProp favorites filePath then deleteProp favorites filePath
      else setProp favorites filePath true
    let ls := { ls with favorites := some (JSON.stringify favorites) }
    (ls, updateFavoriteUI filePath ls queried)

/-- `addToPlaylist(filePath)`; the second component lists the notifications shown. -/
def addToPlaylist (filePath : String) (ls : LocalStorage) :
    Except JSError (LocalStorage × List String) := do
  let playlist ← JSON.parse (orDefault ls.playlist [])
  if !playlist.contains filePath then
    let playlist := playlist ++ [filePath]
    pure ({ ls with playlist := some (JSON.stringify playlist) }, ["Added to playlist"])
  else
    pure (ls, [])

/-- The persisted favorites object, as the methods read it. -/
def favoritesOf (ls : LocalStorage) : Except JSError Favorites :=
  JSON.parse (orDefault ls.favorites [])

/-- The persisted playlist, as `addToPlaylist` reads it. -/
def playlistOf (ls : LocalStorage) : Except JSError Playlist :=
  JSON.parse (orDefault ls.playlist [])

/-- The path `filePath` is in the favorites set: the object maps it to `true`. -/
def favorited (favorites : Favorites) (filePath : String) : Bool :=
  favorites.lookup filePath == some true

/-- The storage after `addToPlaylist(filePath)`. -/
def addToPlaylistStorage (filePath : String) (ls : LocalStorage) : Except JSError LocalStorage :=
  (addToPlaylist filePath ls).map Prod.fst

/-! ## View mode (script.js 212-244) -/

/-- The elements the view toggle works on: the class list of `media-view` (`none` when the
element is missing) and the class lists of the `.view-btn` elements in document order. -/
structure ViewDOM where
  mediaView : Option (List String)
  viewBtns : List (List String)
deriving DecidableEq

/-- `setView(viewType)`. `target` is the index among the `.view-btn` elements of
`event.target`, or `none` when that element is another one (not tracked). -/
def setView (viewType : String) (target : Option ℕ) (ls : LocalStorage) (dom : ViewDOM) :
    Except JSError (LocalStorage × ViewDOM) :=
  let viewBtns := dom.viewBtns.map (fun btn => classListRemove btn "active")
  let viewBtns :=
    match target with
    | some i => viewBtns.modify (fun btn => classListAdd btn "active") i
    | none => viewBtns
  match dom.mediaView with
  | none => Except.error JSError.TypeError
  | some classList =>
    if viewType = "grid" then
      pure ({ ls with viewPreference := some "grid" },
            { mediaView := some (classListAdd (classListRemove classList "list-view") "grid-view"),
              viewBtns := viewBtns })
    else
      pure ({ ls with viewPreference := some "list" },
            { mediaView := some (classListAdd (classListRemove classList "grid-view") "list-view"),
              viewBtns := viewBtns })

/-- The value of `localStorage.getItem('viewPreference') || 'grid'`. -/
def preferredView (ls : LocalStorage) : String :=
  match ls.viewPreference with
  | none => "grid"
  | some stored => if stored = "" then "grid" else stored

/-- `restoreViewPreference()`. Reading `classList` of a missing button is a `TypeError`. -/
def restoreViewPreference (ls : LocalStorage) (dom : ViewDOM) : Except JSError ViewDOM :=
  match dom.mediaView with
  | some classList =>
    if preferredView ls = "grid" then
      match dom.viewBtns[0]? with
      | some btn =>
        pure { mediaView := some (classListAdd classList "grid-view"),
               viewBtns := dom.viewBtns.set 0 (classListAdd btn "active") }
      | none => Except.error JSError.TypeError
    else
      match dom.viewBtns[1]? with
      | some btn =>
        pure { mediaView := some (classListAdd classList "list-view"),
               viewBtns := dom.viewBtns.set 1 (classListAdd btn "active") }
      | none => Except.error JSError.TypeError
  | none => pure dom

/-- The view mode is on in `dom`: `media-view` carries the class `cls` and the toggle with
index `i` carries `active`. -/
def modeSelected (cls : String) (i : ℕ) (dom : ViewDOM) : Bool :=
  match dom.mediaView, dom.viewBtns[i]? with
  | some classList, some btn => decide (cls ∈ classList) && decide ("active" ∈ btn)
  | _, _ => false

/-- Grid mode: class `grid-view`, first toggle active. -/
def gridSelected (dom : ViewDOM) : Bool := modeSelected "grid-view" 0 dom

/-- List mode: class `list-view`, second toggle active. -/
def listSelected (dom : ViewDOM) : Bool := modeSelected "list-view" 1 dom

/-! ## Search (script.js 196-210) -/

/-- A `.media-card`: the text of its `.media-title`, its `data-type` attribute and its
`style.display`. -/
structure MediaCard where
  title : String
  dataType : String
  display : String
deriving DecidableEq

/-- `toLowerCase()`, restricted to ASCII: the letters `A`-`Z` are folded and every other
character is kept. On a string of ASCII characters this is JavaScript's result; JavaScript
also folds the cased letters outside ASCII, which this definition leaves alone. -/
def toLowerCase (s : String) : String := String.mk (s.data.map Char.toLower)

/-- `s.includes(t)`: `t` occurs in `s` as a contiguous run of characters. -/
def includes (s t : String) : Bool :=
  s.data.tails.any (fun rest => t.data.isPrefixOf rest)

/-- `searchMedia(query)` on the list of cards. -/
def searchMedia (query : String) (mediaCards : List MediaCard) : List MediaCard :=
  let queryLower := toLowerCase query
  mediaCards.map (fun card =>
    let title := toLowerCase card.title
    let type := card.dataType
    if includes title queryLower || includes type queryLower then
      { card with display := "block" }
    else
      { card with display := "none" })

/-- What the spec asks of one card: title or declared type contains the query, both compared
without regard to case. -/
def specVisible (query : String) (card : MediaCard) : Bool :=
  includes (toLowerCase card.title) (toLowerCase query) ||
  includes (toLowerCase card.dataType) (toLowerCase query)

/-! ## Notions used in the statements -/

/-- The digit keys, in order. -/
def digitKeys : List String := ["0", "1", "2", "3", "4", "5", "6", "7", "8", "9"]

/-- The key of the digit `d`. -/
def digitKey (d : Fin 10) : String := digitKeys.getD d.val ""

/-- The keys with a case in `handlePlayerShortcuts`. -/
def playerKeys : List String :=
  [" ", "ArrowLeft", "ArrowRight", "ArrowUp", "ArrowDown", "f", "F", "m", "M"] ++ digitKeys

/-- Horizontal displacement of a whole touch. -/
def Touch.dx (t : Touch) : ℚ := diffX (onTouchstart t.x0 t.y0 t.t0) t.release

/-- Vertical displacement of a whole touch (positive is downward). -/
def Touch.dy (t : Touch) : ℚ := diffY (onTouchstart t.x0 t.y0 t.t0) t.release

/-- Duration of a whole touch. -/
def Touch.dt (t : Touch) : ℤ := touchDuration (onTouchstart t.x0 t.y0 t.t0) t.release

/-- The time recorded by the latest touch of `ts` that lasted less than 300 ms, or `last`
when there is none. -/
def lastTap (last : Option ℤ) (ts : List Touch) : Option ℤ :=
  ts.foldl (fun acc t => if t.dt < 300 then some t.release.nowStore else acc) last

/-- `addToPlaylist` for each path of `paths` in turn, stopping at the first exception. -/
def addAllToPlaylist (paths : List String) (ls : LocalStorage) : Except JSError LocalStorage :=
  paths.foldlM (fun acc filePath => addToPlaylistStorage filePath acc) ls

/-- The position after `seekToPercentage(percentage)`, or the exception it ends in. -/
def seekPosition (percentage : ℚ) (w : Page) : Except JSError (Option ℚ) :=
  (seekToPercentage percentage w).map currentTimeOf

/-! ## Sample states -/

/-- A page without a player, not in fullscreen, nothing requested yet. -/
def idlePage : Page :=
  { currentPlayer := none, isFullscreen := false, lastTouchTime := none,
    fullscreenElement := false, requests := [] }

/-- A paused two-minute medium at 0:05, volume one half. -/
def samplePlayer : MediaElement :=
  { paused := true, currentTime := 5, volume := 1 / 2, muted := false,
    duration := JSNumber.finite 120 }

/-- The player page: `idlePage` with `samplePlayer` as the active player. -/
def playerPage : Page := { idlePage with currentPlayer := some samplePlayer }

/-- An unbounded live stream, five seconds in: its `duration` is `+Infinity`. -/
def streamPlayer : MediaElement := { samplePlayer with duration := JSNumber.posInf }

/-- A page whose active player is `streamPlayer`. -/
def streamPage : Page := { idlePage with currentPlayer := some streamPlayer }

/-- A touch held for 400 ms without moving, released at time 1400. -/
def longPress : Touch :=
  { x0 := 100, y0 := 100, t0 := 1000,
    release := { clientX := 100, clientY := 100, touchEndTime := 1400, nowCheck := 1400,
                 nowStore := 1400 } }

/-- A 50 ms tap released at time 1500. -/
def quickTap : Touch :=
  { x0 := 100, y0 := 100, t0 := 1450,
    release := { clientX := 100, clientY := 100, touchEndTime := 1500, nowCheck := 1500,
                 nowStore := 1500 } }

/-- A 50 ms tap released at time 1100. -/
def firstTap : Touch :=
  { x0 := 100, y0 := 100, t0 := 1050,
    release := { clientX := 100, clientY := 100, touchEndTime := 1100, nowCheck := 1100,
                 nowStore := 1100 } }

/-- A swipe to the right: 80 px across, 5 px down, in 150 ms, released at time 1300. -/
def swipeRight : Touch :=
  { x0 := 100, y0 := 100, t0 := 1150,
    release := { clientX := 180, clientY := 105, touchEndTime := 1300, nowCheck := 1300,
                 nowStore := 1300 } }

/-- A swipe downward: 5 px across, 80 px down, in 150 ms, released at time 1300. -/
def swipeDown : Touch :=
  { x0 := 100, y0 := 100, t0 := 1150,
    release := { clientX := 105, clientY := 180, touchEndTime := 1300, nowCheck := 1300,
                 nowStore := 1300 } }

/-- Local storage with none of the three keys set. -/
def emptyStorage : LocalStorage := { viewPreference := none, favorites := none, playlist := none }

/-- Local storage whose `favorites` and `playlist` hold non-empty strings that are not JSON. -/
def corruptStorage : LocalStorage :=
  { viewPreference := none, favorites := some Text.malformed, playlist := some Text.malformed }

/-- Local storage whose `playlist` is the array of `clip.mp4` twice. -/
def repeatedStorage : LocalStorage :=
  { emptyStorage with playlist := some (Text.json ["clip.mp4", "clip.mp4"]) }

/-- A favorite button showing the outline heart. -/
def outlineBtn : FavoriteBtn :=
  { innerHTML := "<i class=\"far fa-heart\"></i>", classList := ["action-btn", "favorite-btn"] }

/-- A freshly loaded page: `media-view` without a mode class, two inactive toggles. -/
def freshDOM : ViewDOM :=
  { mediaView := some ["media-container"], viewBtns := [["view-btn"], ["view-btn"]] }

/-- Local storage whose `viewPreference` is a string that is neither `grid` nor `list`. -/
def strayViewStorage : LocalStorage := { emptyStorage with viewPreference := some "tiles" }

/-- A card titled `Clip` whose declared type is written `Video`. -/
def capitalTypeCard : MediaCard := { title := "Clip", dataType := "Video", display := "block" }

/-- The two cards of the search example. -/
def exampleCards : List MediaCard :=
  [{ title := "Sunset Walk", dataType := "video", display := "block" },
   { title := "Interview", dataType := "audio", display := "block" }]

/-! ## Theorems: playback control -/

theorem adjustVolume_of_player (delta : ℚ) (w : Page) (p : MediaElement)
    (h : w.currentPlayer = some p) :
    adjustVolume delta w =
      { w with currentPlayer := some { p with volume := max 0 (min 1 (p.volume + delta)) } } := by
  simp [adjustVolume, h]

theorem clamp_mem_unit (x : ℚ) : 0 ≤ max 0 (min 1 x) ∧ max 0 (min 1 x) ≤ 1 := by
  refine ⟨le_max_left _ _, max_le (by norm_num) (min_le_left _ _)⟩

theorem adjustVolumes_in_unit (deltas : List ℚ) :
    ∀ (w : Page) (p : MediaElement), w.currentPlayer = some p →
      0 ≤ p.volume → p.volume ≤ 1 →
      ∃ v, volumeOf (adjustVolumes deltas w) = some v ∧ 0 ≤ v ∧ v ≤ 1 := by
  induction deltas with
  | nil =>
    intro w p h h0 h1
    exact ⟨p.volume, by simp [adjustVolumes, volumeOf, h], h0, h1⟩
  | cons d ds ih =>
    intro w p h _ _
    have hstep := adjustVolume_of_player d w p h
    have := ih (adjustVolume d w) { p with volume := max 0 (min 1 (p.volume + d)) }
      (by rw [hstep]) (clamp_mem_unit _).1 (clamp_mem_unit _).2
    simpa [adjustVolumes] using this

/-- C1: with an active player of volume `v`, `adjustVolume(d)` sets the volume to
`max(0, min(1, v + d))` and changes nothing else; after any non-empty sequence of
`adjustVolume` calls, and after any sequence at all when `v` was in `[0, 1]`, the volume lies
in `[0, 1]`. -/
theorem adjustVolume_clamps (w : Page) (p : MediaElement) (h : w.currentPlayer = some p)
    (d : ℚ) (ds : List ℚ) :
    adjustVolume d w =
        { w with currentPlayer := some { p with volume := max 0 (min 1 (p.volume + d)) } } ∧
      volumeOf (adjustVolume d w) = some (max 0 (min 1 (p.volume + d))) ∧
      (∃ v, volumeOf (adjustVolumes (d :: ds) w) = some v ∧ 0 ≤ v ∧ v ≤ 1) ∧
      (0 ≤ p.volume → p.volume ≤ 1 →
        ∃ v, volumeOf (adjustVolumes ds w) = some v ∧ 0 ≤ v ∧ v ≤ 1) := by
  have hstep := adjustVolume_of_player d w p h
  refine ⟨hstep, by rw [hstep]; rfl, ?_, adjustVolumes_in_unit ds w p h⟩
  have := adjustVolumes_in_unit ds (adjustVolume d w)
    { p with volume := max 0 (min 1 (p.volume + d)) } (by rw [hstep])
    (clamp_mem_unit _).1 (clamp_mem_unit _).2
  simpa [adjustVolumes] using this

/-- Witness for C1: from volume 1/2, the deltas 7, -1/10 and -30 end inside `[0, 1]`, and the
first call alone sets the volume to `max 0 (min 1 (1/2 + 7))`. -/
theorem adjustVolume_clamps_witness :
    volumeOf (adjustVolume 7 playerPage) = some (max 0 (min 1 (samplePlayer.volume + 7))) ∧
      ∃ v, volumeOf (adjustVolumes [7, -(1 / 10), -30] playerPage) = some v ∧ 0 ≤ v ∧ v ≤ 1 :=
  ⟨(adjustVolume_clamps playerPage samplePlayer rfl 7 [-(1 / 10), -30]).2.1,
   (adjustVolume_clamps playerPage samplePlayer rfl 7 [-(1 / 10), -30]).2.2.1⟩

theorem perform_seek (w : Page) (percentage : ℚ) :
    perform w (Call.seekToPercentage percentage) =
      match seekToPercentage percentage w with
      | Except.ok w1 => w1
      | Except.error _ => w := rfl

theorem seekToPercentage_finite (w : Page) (m : MediaElement) (h : w.currentPlayer = some m)
    (hm : m.inRange = true) (d : ℚ) (hd : m.duration = JSNumber.finite d) (r : ℚ) :
    0 ≤ d ∧ seekToPercentage r w =
      Except.ok { w with currentPlayer := some { m with currentTime := (r / 100) * d } } := by
  obtain ⟨cp, fs, lt, fe, rq⟩ := w
  obtain ⟨pa, ct, vo, mu, du⟩ := m
  simp only at h hd
  subst h hd
  simp only [MediaElement.inRange, Bool.and_eq_true, decide_eq_true_eq] at hm
  refine ⟨le_trans hm.1 hm.2, ?_⟩
  by_cases hz : d = 0
  · have hct : ct = 0 := le_antisymm (hz ▸ hm.2) hm.1
    subst hz hct
    simp [seekToPercentage, JSNumber.truthy]
  · simp [seekToPercentage, JSNumber.truthy, JSNumber.times, setCurrentTime, hz]

/-- C2, as stated, fails on an unbounded stream. Its duration is `+Infinity`, which is known
and truthy, so the guard lets the call through; at `p = 0` the product `(0 / 100) * Infinity`
is `NaN` and at `p = 50` it is `Infinity`, the assignment to `currentTime` is refused with a
`TypeError`, and the position is not 0 at `p = 0`: it stays at 5. -/
theorem seekToPercentage_unbounded_stream :
    streamPage.currentPlayer = some streamPlayer ∧
      streamPlayer.inRange = true ∧
      streamPlayer.duration = JSNumber.posInf ∧
      streamPlayer.duration.truthy = true ∧
      JSNumber.times (0 / 100) streamPlayer.duration = JSNumber.nan ∧
      seekToPercentage 0 streamPage = Except.error JSError.TypeError ∧
      seekToPercentage 50 streamPage = Except.error JSError.TypeError ∧
      seekPosition 0 streamPage ≠ Except.ok (some 0) ∧
      currentTimeOf (perform streamPage (Call.seekToPercentage 0)) = some 5 := by
  have h0 : seekToPercentage 0 streamPage = Except.error JSError.TypeError := by
    simp [seekToPercentage, streamPage, streamPlayer, JSNumber.truthy, JSNumber.times,
      setCurrentTime]
  have h50 : seekToPercentage 50 streamPage = Except.error JSError.TypeError := by
    simp [seekToPercentage, streamPage, streamPlayer, JSNumber.truthy, JSNumber.times,
      setCurrentTime]
  refine ⟨rfl, by decide, rfl, rfl, ?_, h0, h50, ?_, ?_⟩
  · simp [streamPlayer, JSNumber.times]
  · unfold seekPosition
    rw [h0]
    exact fun hne => by cases hne
  · rw [perform_seek, h0]
    rfl

/-- C2, amended: for an active player whose position the platform keeps in range
(`0 ≤ currentTime`, and `currentTime ≤ duration` when the duration is finite) and for
`0 ≤ p ≤ 100`: when the duration is `NaN`, `seekToPercentage(p)` changes nothing; when the
duration is a finite number `d`, the page afterwards is the page with `currentTime` set to
`(p / 100) * d`, a value in `[0, d]` that is `0` at `p = 0`, `d` at `p = 100` and monotone
in `p`. -/
theorem seekToPercentage_linear (w : Page) (m : MediaElement) (h : w.currentPlayer = some m)
    (hm : m.inRange = true) (p : ℚ) (hp0 : 0 ≤ p) (hp100 : p ≤ 100) :
    (m.duration = JSNumber.nan → seekToPercentage p w = Except.ok w) ∧
      (∀ d, m.duration = JSNumber.finite d →
        seekToPercentage p w =
          Except.ok { w with currentPlayer := some { m with currentTime := (p / 100) * d } } ∧
        seekPosition p w = Except.ok (some ((p / 100) * d)) ∧
        0 ≤ (p / 100) * d ∧ (p / 100) * d ≤ d ∧
        seekPosition 0 w = Except.ok (some 0) ∧
        seekPosition 100 w = Except.ok (some d) ∧
        ∀ q, p ≤ q → ∃ t u, seekPosition p w = Except.ok (some t) ∧
          seekPosition q w = Except.ok (some u) ∧ t ≤ u) := by
  refine ⟨?_, ?_⟩
  · intro hd
    simp [seekToPercentage, h, hd, JSNumber.truthy]
  · intro d hd
    have key := fun r => (seekToPercentage_finite w m h hm d hd r).2
    have hpos : 0 ≤ d := (seekToPercentage_finite w m h hm d hd p).1
    have hval : ∀ r : ℚ, seekPosition r w = Except.ok (some ((r / 100) * d)) := by
      intro r
      unfold seekPosition
      rw [key r]
      rfl
    have hmono : ∀ a b : ℚ, a ≤ b → (a / 100) * d ≤ (b / 100) * d := by
      intro a b hab
      exact mul_le_mul_of_nonneg_right (div_le_div_of_nonneg_right hab (by norm_num)) hpos
    refine ⟨key p, hval p, ?_, ?_, ?_, ?_, ?_⟩
    · exact mul_nonneg (div_nonneg hp0 (by norm_num)) hpos
    · have := hmono p 100 hp100
      simpa using this
    · simpa using hval 0
    · simpa using hval 100
    · intro q hpq
      exact ⟨_, _, hval p, hval q, hmono p q hpq⟩

/-- Witness for C2, amended: on the two-minute sample medium, 30% is second 36. -/
theorem seekToPercentage_linear_witness :
    seekPosition 30 playerPage = Except.ok (some ((30 / 100) * 120)) :=
  ((seekToPercentage_linear playerPage samplePlayer rfl (by decide) 30 (by norm_num)
    (by norm_num)).2 120 rfl).2.1

/-- C8, as stated, fails for `toggleFullscreen`: on a page without a player it issues a
fullscreen request and sets `isFullscreen`. -/
theorem toggleFullscreen_without_player_acts :
    idlePage.currentPlayer = none ∧
      (toggleFullscreen idlePage).isFullscreen = true ∧
      (toggleFullscreen idlePage).requests = [Request.requestFullscreen] ∧
      toggleFullscreen idlePage ≠ idlePage := by
  refine ⟨rfl, rfl, rfl, by decide⟩

/-- C8, amended: without an active player `togglePlay`, `skip`, `adjustVolume`, `toggleMute`
and `seekToPercentage` change nothing and request nothing, whatever their argument;
`toggleFullscreen` does not look at the player: off fullscreen it requests fullscreen and
sets `isFullscreen`, in fullscreen it asks to leave it and clears `isFullscreen`, and in both
cases it leaves the player reference and `document.fullscreenElement` as they were. -/
theorem no_player_noop (w : Page) (h : w.currentPlayer = none) :
    togglePlay w = w ∧ (∀ seconds, skip seconds w = w) ∧ (∀ delta, adjustVolume delta w = w) ∧
      toggleMute w = w ∧ (∀ percentage, seekToPercentage percentage w = Except.ok w) ∧
      (toggleFullscreen w).currentPlayer = none ∧
      (toggleFullscreen w).fullscreenElement = w.fullscreenElement ∧
      (toggleFullscreen w).lastTouchTime = w.lastTouchTime ∧
      (w.fullscreenElement = false →
        (toggleFullscreen w).isFullscreen = true ∧
        (toggleFullscreen w).requests = w.requests ++ [Request.requestFullscreen]) ∧
      (w.fullscreenElement = true →
        (toggleFullscreen w).isFullscreen = false ∧
        (toggleFullscreen w).requests = w.requests ++ [Request.exitFullscreen]) := by
  refine ⟨by simp [togglePlay, h], fun _ => by simp [skip, h],
    fun _ => by simp [adjustVolume, h], by simp [toggleMute, h],
    fun _ => by simp [seekToPercentage, h], ?_, ?_, ?_, ?_, ?_⟩
  · unfold toggleFullscreen; split <;> simpa using h
  · unfold toggleFullscreen; split <;> rfl
  · unfold toggleFullscreen; split <;> rfl
  · intro hf; simp [toggleFullscreen, hf]
  · intro hf; simp [toggleFullscreen, hf]

/-- Witness for C8, amended, on `idlePage`. -/
theorem no_player_noop_witness :
    togglePlay idlePage = idlePage ∧ skip 10 idlePage = idlePage ∧
      adjustVolume (1 / 10) idlePage = idlePage ∧ toggleMute idlePage = idlePage ∧
      seekToPercentage 50 idlePage = Except.ok idlePage ∧
      (toggleFullscreen idlePage).requests = idlePage.requests ++ [Request.requestFullscreen] :=
  have h := no_player_noop idlePage rfl
  ⟨h.1, h.2.1 10, h.2.2.1 (1 / 10), h.2.2.2.1, h.2.2.2.2.1 50,
   (h.2.2.2.2.2.2.2.2.1 rfl).2⟩

/-! ## Theorems: keyboard shortcuts -/

theorem handlePlayerShortcuts_other (key : String) (h : key ∉ playerKeys) :
    handlePlayerShortcuts key = [] := by
  simp [playerKeys, digitKeys] at h
  simp [handlePlayerShortcuts, h]

theorem handlePlayerShortcuts_digit (d : Fin 10) :
    handlePlayerShortcuts (digitKey d) =
      [Call.preventDefault, Call.seekToPercentage ((d.val : ℚ) * 10)] := by
  fin_cases d <;> simp [handlePlayerShortcuts, digitKey, digitKeys, parseInt]

/-- C10: the `keydown` listener follows the shortcut table. The key `/` suppresses the default
and focuses the search input (when that element exists), with or without a player, and runs
no playback action. With a player, space toggles play/pause, the arrow keys skip by -10 and +10 s
and adjust the volume by +0.1 and -0.1, `f`/`F` toggle fullscreen, `m`/`M` toggle mute and the digit
`d` seeks to `d * 10` percent, each after `preventDefault`. Any other key, and any key but
`/` when there is no player, makes no call at all. -/
theorem onKeydown_dispatch (searchInput : Bool) (w : Page) (key : String) :
    onKeydown searchInput w "/" =
        Call.preventDefault :: (if searchInput then [Call.focus] else []) ∧
      (w.currentPlayer.isSome = true →
        onKeydown searchInput w " " = [Call.preventDefault, Call.togglePlay] ∧
        onKeydown searchInput w "ArrowLeft" = [Call.preventDefault, Call.skip (-10)] ∧
        onKeydown searchInput w "ArrowRight" = [Call.preventDefault, Call.skip 10] ∧
        onKeydown searchInput w "ArrowUp" = [Call.preventDefault, Call.adjustVolume (1 / 10)] ∧
        onKeydown searchInput w "ArrowDown" =
          [Call.preventDefault, Call.adjustVolume (-(1 / 10))] ∧
        onKeydown searchInput w "f" = [Call.preventDefault, Call.toggleFullscreen] ∧
        onKeydown searchInput w "F" = [Call.preventDefault, Call.toggleFullscreen] ∧
        onKeydown searchInput w "m" = [Call.preventDefault, Call.toggleMute] ∧
        onKeydown searchInput w "M" = [Call.preventDefault, Call.toggleMute] ∧
        ∀ d : Fin 10, onKeydown searchInput w (digitKey d) =
          [Call.preventDefault, Call.seekToPercentage ((d.val : ℚ) * 10)]) ∧
      (key ≠ "/" → key ∉ playerKeys → onKeydown searchInput w key = []) ∧
      (w.currentPlayer = none → key ≠ "/" → onKeydown searchInput w key = []) := by
  refine ⟨?_, ?_, ?_, ?_⟩
  · have h : handlePlayerShortcuts "/" = [] := by decide
    cases searchInput <;> simp [onKeydown, h]
  · intro hp
    refine ⟨?_, ?_, ?_, ?_, ?_, ?_, ?_, ?_, ?_, ?_⟩
    · simp [onKeydown, hp, handlePlayerShortcuts]
    · simp [onKeydown, hp, handlePlayerShortcuts]
    · simp [onKeydown, hp, handlePlayerShortcuts]
    · simp [onKeydown, hp, handlePlayerShortcuts]
    · simp [onKeydown, hp, handlePlayerShortcuts]
    · simp [onKeydown, hp, handlePlayerShortcuts]
    · simp [onKeydown, hp, handlePlayerShortcuts]
    · simp [onKeydown, hp, handlePlayerShortcuts]
    · simp [onKeydown, hp, handlePlayerShortcuts]
    · intro d
      have hne : digitKey d ≠ "/" := by
        fin_cases d <;> simp [digitKey, digitKeys]
      simp [onKeydown, hp, hne, handlePlayerShortcuts_digit]
  · intro hk hother
    simp [onKeydown, hk, handlePlayerShortcuts_other key hother]
  · intro hnone hk
    simp [onKeydown, hk, hnone]

/-- Witness for C10: on the player page the key `7` seeks to 70 percent, and on a page
without a player the key `m` does nothing. -/
theorem onKeydown_dispatch_witness :
    onKeydown true playerPage (digitKey 7) =
        [Call.preventDefault, Call.seekToPercentage (((7 : Fin 10).val : ℚ) * 10)] ∧
      onKeydown true idlePage "m" = [] :=
  ⟨(onKeydown_dispatch true playerPage "m").2.1 rfl |>.2.2.2.2.2.2.2.2.2 7,
   (onKeydown_dispatch true idlePage "m").2.2.2 rfl (by decide)⟩

/-! ## Theorems: touch gestures -/

theorem seekToPercentage_frame (percentage : ℚ) (w w1 : Page)
    (h : seekToPercentage percentage w = Except.ok w1) :
    w1.lastTouchTime = w.lastTouchTime ∧
      w1.currentPlayer.isSome = w.currentPlayer.isSome := by
  unfold seekToPercentage at h
  cases hp : w.currentPlayer with
  | none =>
    rw [hp] at h
    simp only [Except.ok.injEq] at h
    subst h
    exact ⟨rfl, by rw [hp]⟩
  | some m =>
    rw [hp] at h
    simp only at h
    by_cases ht : m.duration.truthy = true
    · rw [if_pos ht] at h
      cases hs : setCurrentTime (JSNumber.times (percentage / 100) m.duration) m with
      | error err => rw [hs] at h; cases h
      | ok m1 =>
        rw [hs] at h
        simp only [Except.ok.injEq] at h
        subst h
        exact ⟨rfl, rfl⟩
    · rw [if_neg ht] at h
      simp only [Except.ok.injEq] at h
      subst h
      exact ⟨rfl, by rw [hp]⟩

theorem perform_frame (w : Page) (c : Call) :
    (perform w c).lastTouchTime = w.lastTouchTime ∧
      (perform w c).currentPlayer.isSome = w.currentPlayer.isSome := by
  cases c with
  | seekToPercentage percentage =>
    rw [perform_seek]
    cases hs : seekToPercentage percentage w with
    | error err => exact ⟨rfl, rfl⟩
    | ok w1 => exact seekToPercentage_frame percentage w w1 hs
  | _ =>
    simp only [perform, togglePlay, skip, adjustVolume, toggleMute, toggleFullscreen]
    (repeat' split) <;> simp_all

theorem foldl_perform_frame (cs : List Call) :
    ∀ w : Page, (cs.foldl perform w).lastTouchTime = w.lastTouchTime ∧
      (cs.foldl perform w).currentPlayer.isSome = w.currentPlayer.isSome := by
  induction cs with
  | nil => intro w; exact ⟨rfl, rfl⟩
  | cons c cs ih =>
    intro w
    have h1 := ih (perform w c)
    have h2 := perform_frame w c
    exact ⟨h1.1.trans h2.1, h1.2.trans h2.2⟩

theorem onTouch_frame (w : Page) (t : Touch) :
    (onTouch w t).lastTouchTime = (if t.dt < 300 then some t.release.nowStore else w.lastTouchTime) ∧
      (onTouch w t).currentPlayer.isSome = w.currentPlayer.isSome := by
  have h := foldl_perform_frame (touchendCalls (onTouchstart t.x0 t.y0 t.t0) w t.release) w
  unfold onTouch onTouchend
  by_cases hd : t.dt < 300
  · have hd' : touchDuration (onTouchstart t.x0 t.y0 t.t0) t.release < 300 := hd
    simp only [hd, hd', if_true]
    exact ⟨trivial, h.2⟩
  · have hd' : ¬ touchDuration (onTouchstart t.x0 t.y0 t.t0) t.release < 300 := hd
    simp only [hd, hd', if_false]
    exact h

theorem foldl_onTouch_frame (ts : List Touch) :
    ∀ w : Page, (ts.foldl onTouch w).lastTouchTime = lastTap w.lastTouchTime ts ∧
      (ts.foldl onTouch w).currentPlayer.isSome = w.currentPlayer.isSome := by
  induction ts with
  | nil => intro w; exact ⟨rfl, rfl⟩
  | cons t ts ih =>
    intro w
    have h1 := ih (onTouch w t)
    have h2 := onTouch_frame w t
    refine ⟨?_, h1.2.trans h2.2⟩
    rw [List.foldl_cons, h1.1, h2.1]
    rfl

theorem recentTap_iff (last : Option ℤ) (now : ℤ) :
    recentTap last now = true ↔ ∃ s, last = some s ∧ s ≠ 0 ∧ now - s < 300 := by
  cases last with
  | none => simp [recentTap]
  | some s => simp [recentTap]

theorem callsAfter_eq (w : Page) (hp : w.currentPlayer.isSome = true) (ts : List Touch)
    (t : Touch) :
    callsAfter w ts t =
      (if |t.dx| > 50 ∧ |t.dy| < 50 ∧ t.dt < 300 then
        [Call.skip (if t.dx > 0 then 10 else -10)] else []) ++
      (if |t.dy| > 50 ∧ |t.dx| < 50 ∧ t.dt < 300 then
        [Call.adjustVolume (if t.dy > 0 then -(1 / 10) else 1 / 10)] else []) ++
      (if t.dt < 300 ∧ recentTap (lastTap w.lastTouchTime ts) t.release.nowCheck = true then
        [Call.togglePlay] else []) := by
  have h := foldl_onTouch_frame ts w
  unfold callsAfter touchendCalls
  rw [h.1, h.2, hp]
  simp only [Touch.dx, Touch.dy, Touch.dt, if_true]
  congr 1
  · congr 1
    · split <;> [split <;> rfl; rfl]
    · split <;> [split <;> rfl; rfl]
  · by_cases h1 : touchDuration (onTouchstart t.x0 t.y0 t.t0) t.release < 300 <;>
      by_cases h2 : recentTap (lastTap w.lastTouchTime ts) t.release.nowCheck = true <;>
      simp [h1, h2]

/-- C9, as stated, fails. A touch held for 400 ms ends at 1400 and a 50 ms tap ends at 1500:
the tap has `dt < 300` and a touch-end happened 100 ms before it, yet no play/pause toggle
fires, because the long touch was not recorded. And a swipe with `dx = 80`, `dy = 5`,
`dt = 150` that ends 200 ms after a tap fires the forward skip and the play/pause toggle,
not the skip only. -/
theorem touchend_counterexample :
    playerPage.currentPlayer.isSome = true ∧
      (quickTap.dt < 300 ∧ quickTap.release.touchEndTime - longPress.release.touchEndTime < 250 ∧
        Call.togglePlay ∉ callsAfter playerPage [longPress] quickTap) ∧
      (swipeRight.dx = 80 ∧ swipeRight.dy = 5 ∧ swipeRight.dt = 150 ∧
        callsAfter playerPage [firstTap] swipeRight = [Call.skip 10, Call.togglePlay]) := by
  have e1 := callsAfter_eq playerPage rfl [longPress] quickTap
  have e2 := callsAfter_eq playerPage rfl [firstTap] swipeRight
  have hx : swipeRight.dx = 80 := by
    simp [Touch.dx, diffX, onTouchstart, swipeRight]; norm_num
  have hy : swipeRight.dy = 5 := by
    simp [Touch.dy, diffY, onTouchstart, swipeRight]; norm_num
  have hx0 : quickTap.dx = 0 := by simp [Touch.dx, diffX, onTouchstart, quickTap]
  have hy0 : quickTap.dy = 0 := by simp [Touch.dy, diffY, onTouchstart, quickTap]
  have ht : swipeRight.dt = 150 := by decide
  have ht0 : quickTap.dt = 50 := by decide
  have hl1 : lastTap playerPage.lastTouchTime [longPress] = none := by decide
  have hl2 : lastTap playerPage.lastTouchTime [firstTap] = some 1100 := by decide
  refine ⟨rfl, ⟨by decide, by decide, ?_⟩, hx, hy, ht, ?_⟩
  · rw [e1, hx0, hy0, ht0, hl1]
    simp [recentTap]
  · rw [e2, hx, hy, ht, hl2]
    simp [recentTap, swipeRight]
    norm_num

/-- C9, amended: with an active player, the calls made at a touch-end are, in this order:
`skip(10)` if `dx > 0` else `skip(-10)`, exactly when `|dx| > 50`, `|dy| < 50` and `dt < 300`;
`adjustVolume(-0.1)` if `dy > 0` else `adjustVolume(0.1)`, exactly when `|dy| > 50`,
`|dx| < 50` and `dt < 300`; `togglePlay`, exactly when `dt < 300` and the recorded last-tap
time is set, non-zero and less than 300 ms old, the recorded time being that of the latest
earlier touch-end that itself had `dt < 300`. The last-tap time is updated on every touch-end
with `dt < 300` and on no other. In particular `(dx, dy, dt) = (80, 5, 150)` fires the
forward skip and `(5, 80, 150)` the volume decrease, each followed by `togglePlay` only when
such a recent tap is recorded; and of two touch-ends that both have `dt < 300` and lie within
250 ms of each other, the second fires `togglePlay`. -/
theorem touchend_actions (w : Page) (hp : w.currentPlayer.isSome = true) (ts : List Touch)
    (t : Touch) :
    callsAfter w ts t =
        (if |t.dx| > 50 ∧ |t.dy| < 50 ∧ t.dt < 300 then
          [Call.skip (if t.dx > 0 then 10 else -10)] else []) ++
        (if |t.dy| > 50 ∧ |t.dx| < 50 ∧ t.dt < 300 then
          [Call.adjustVolume (if t.dy > 0 then -(1 / 10) else 1 / 10)] else []) ++
        (if t.dt < 300 ∧ recentTap (lastTap w.lastTouchTime ts) t.release.nowCheck = true then
          [Call.togglePlay] else []) ∧
      (Call.togglePlay ∈ callsAfter w ts t ↔
        t.dt < 300 ∧
          ∃ s, lastTap w.lastTouchTime ts = some s ∧ s ≠ 0 ∧ t.release.nowCheck - s < 300) ∧
      ((ts ++ [t]).foldl onTouch w).lastTouchTime =
        (if t.dt < 300 then some t.release.nowStore else lastTap w.lastTouchTime ts) ∧
      (t.dx = 80 → t.dy = 5 → t.dt = 150 →
        callsAfter w ts t = Call.skip 10 ::
          (if recentTap (lastTap w.lastTouchTime ts) t.release.nowCheck = true then
            [Call.togglePlay] else [])) ∧
      (t.dx = 5 → t.dy = 80 → t.dt = 150 →
        callsAfter w ts t = Call.adjustVolume (-(1 / 10)) ::
          (if recentTap (lastTap w.lastTouchTime ts) t.release.nowCheck = true then
            [Call.togglePlay] else [])) ∧
      (∀ t1 : Touch, t1.dt < 300 → t.dt < 300 → t1.release.nowStore ≠ 0 →
        t.release.nowCheck - t1.release.nowStore ≤ 250 →
        Call.togglePlay ∈ callsAfter w (ts ++ [t1]) t) := by
  have heq := callsAfter_eq w hp
  have hmem : ∀ (us : List Touch), (Call.togglePlay ∈ callsAfter w us t ↔
      t.dt < 300 ∧ recentTap (lastTap w.lastTouchTime us) t.release.nowCheck = true) := by
    intro us
    rw [heq us t]
    by_cases h1 : |t.dx| > 50 ∧ |t.dy| < 50 ∧ t.dt < 300 <;>
      by_cases h2 : |t.dy| > 50 ∧ |t.dx| < 50 ∧ t.dt < 300 <;>
      by_cases h3 : t.dt < 300 ∧
        recentTap (lastTap w.lastTouchTime us) t.release.nowCheck = true <;>
      simp [h1, h2, h3]
  refine ⟨heq ts t, ?_, ?_, ?_, ?_, ?_⟩
  · rw [hmem ts, recentTap_iff]
  · rw [(foldl_onTouch_frame (ts ++ [t]) w).1]
    simp [lastTap, List.foldl_append]
  · intro hx hy ht
    rw [heq ts t, hx, hy, ht]
    norm_num
  · intro hx hy ht
    rw [heq ts t, hx, hy, ht]
    norm_num
  · intro t1 h1 h2 h3 h4
    rw [hmem (ts ++ [t1])]
    refine ⟨h2, ?_⟩
    rw [recentTap_iff]
    refine ⟨t1.release.nowStore, ?_, h3, by omega⟩
    simp [lastTap, List.foldl_append, h1]

/-- Witness for C9, amended: on the player page a lone right swipe fires the forward skip
only, a lone downward swipe the volume decrease only, and a swipe 200 ms after a tap also
fires `togglePlay`. -/
theorem touchend_actions_witness :
    callsAfter playerPage [] swipeRight = [Call.skip 10] ∧
      callsAfter playerPage [] swipeDown = [Call.adjustVolume (-(1 / 10))] ∧
      Call.togglePlay ∈ callsAfter playerPage ([] ++ [firstTap]) swipeRight := by
  have hr := touchend_actions playerPage rfl [] swipeRight
  have hd := touchend_actions playerPage rfl [] swipeDown
  refine ⟨?_, ?_, hr.2.2.2.2.2 firstTap (by decide) (by decide) (by decide) (by decide)⟩
  · have := hr.2.2.2.1 (by simp [Touch.dx, diffX, onTouchstart, swipeRight]; norm_num)
      (by simp [Touch.dy, diffY, onTouchstart, swipeRight]; norm_num) (by decide)
    simpa [lastTap, recentTap, playerPage, idlePage] using this
  · have := hd.2.2.2.2.1 (by simp [Touch.dx, diffX, onTouchstart, swipeDown]; norm_num)
      (by simp [Touch.dy, diffY, onTouchstart, swipeDown]; norm_num) (by decide)
    simpa [lastTap, recentTap, playerPage, idlePage] using this

/-! ## Theorems: favorites -/

theorem lookup_cons_eq (k q : String) (v : Bool) (rest : Favorites) :
    List.lookup q ((k, v) :: rest) = if q = k then some v else List.lookup q rest := by
  by_cases h : q = k
  · subst h; simp [List.lookup_cons]
  · have : (q == k) = false := by simpa using h
    simp [List.lookup_cons, this, h]

theorem lookup_deleteProp (favorites : Favorites) (filePath q : String) :
    (deleteProp favorites filePath).lookup q =
      if q = filePath then none else favorites.lookup q := by
  induction favorites with
  | nil => simp [deleteProp]
  | cons kv rest ih =>
    obtain ⟨k, v⟩ := kv
    unfold deleteProp at ih ⊢
    rw [List.filter_cons, lookup_cons_eq]
    by_cases hk : k = filePath
    · have hd : decide ((k, v).1 ≠ filePath) = false := by simp [hk]
      rw [hd, if_neg (by simp), ih]
      by_cases hq : q = filePath
      · rw [if_pos hq, if_pos hq]
      · rw [if_neg hq, if_neg hq, if_neg (by rw [hk]; exact hq)]
    · have hd : decide ((k, v).1 ≠ filePath) = true := by simp [hk]
      rw [hd, if_pos rfl, lookup_cons_eq, ih]
      by_cases hq : q = filePath
      · rw [if_pos hq, if_pos hq, if_neg (by rw [hq]; exact fun h => hk h.symm)]
      · rw [if_neg hq, if_neg hq]

theorem lookup_map_set (favorites : Favorites) (filePath q : String) (value : Bool) :
    (favorites.map (fun kv => if kv.1 = filePath then (filePath, value) else kv)).lookup q =
      if q = filePath then (favorites.lookup q).map (fun _ => value) else favorites.lookup q := by
  induction favorites with
  | nil => simp
  | cons kv rest ih =>
    obtain ⟨k, v⟩ := kv
    rw [List.map_cons, lookup_cons_eq k q v]
    by_cases hk : k = filePath
    · rw [if_pos (show (k, v).1 = filePath from hk), lookup_cons_eq, ih]
      by_cases hq : q = filePath
      · rw [if_pos hq, if_pos hq, if_pos (hq.trans hk.symm)]; rfl
      · rw [if_neg hq, if_neg hq, if_neg hq, if_neg (by rw [hk]; exact hq)]
    · rw [if_neg (show ¬ (k, v).1 = filePath from hk), lookup_cons_eq, ih]
      by_cases hqk : q = k
      · rw [if_pos hqk, if_pos hqk, if_neg (by rw [hqk]; exact hk)]
      · rw [if_neg hqk, if_neg hqk]

theorem lookup_append_new (favorites : Favorites) (filePath q : String) (value : Bool)
    (h : ∀ kv ∈ favorites, kv.1 ≠ filePath) :
    (favorites ++ [(filePath, value)]).lookup q =
      if q = filePath then some value else favorites.lookup q := by
  induction favorites with
  | nil =>
    rw [List.nil_append, lookup_cons_eq]
  | cons kv rest ih =>
    obtain ⟨k, v⟩ := kv
    have hk : k ≠ filePath := h (k, v) (List.mem_cons_self _ _)
    rw [List.cons_append, lookup_cons_eq, lookup_cons_eq,
      ih (fun kv hkv => h kv (List.mem_cons_of_mem _ hkv))]
    by_cases hqk : q = k
    · rw [if_pos hqk, if_pos hqk, if_neg (by rw [hqk]; exact hk)]
    · rw [if_neg hqk, if_neg hqk]

theorem lookup_setProp (favorites : Favorites) (filePath q : String) (value : Bool) :
    (setProp favorites filePath value).lookup q =
      if q = filePath then some value else favorites.lookup q := by
  unfold setProp
  by_cases h : favorites.any (fun kv => kv.1 == filePath) = true
  · rw [if_pos h, lookup_map_set]
    by_cases hq : q = filePath
    · rw [if_pos hq, if_pos hq]
      obtain ⟨kv, hmem, hkv⟩ := List.any_eq_true.mp h
      have hkq : kv.1 = q := by rw [hq]; simpa using hkv
      cases hl : List.lookup q favorites with
      | none =>
        rw [List.lookup_eq_none_iff] at hl
        have := hl kv hmem
        rw [hkq] at this
        simp at this
      | some v => rfl
    · rw [if_neg hq, if_neg hq]
  · rw [if_neg h]
    apply lookup_append_new
    intro kv hkv hk
    apply h
    exact List.any_eq_true.mpr ⟨kv, hkv, by simpa using hk⟩

theorem parse_orDefault_ok {α : Type} (item : Option (Text α)) (dflt value : α)
    (h : JSON.parse (orDefault item dflt) = Except.ok value) :
    orDefault item dflt = Text.json value := by
  cases hi : orDefault item dflt with
  | empty => rw [hi] at h; simp [JSON.parse] at h
  | malformed => rw [hi] at h; simp [JSON.parse] at h
  | json v =>
    rw [hi] at h
    simp only [JSON.parse, Except.ok.injEq] at h
    rw [h]

theorem toggleFavorite_storage (filePath : String) (ls : LocalStorage) (favorites : Favorites)
    (queried : Except JSError (Option FavoriteBtn))
    (h : favoritesOf ls = Except.ok favorites) :
    (toggleFavorite filePath ls queried).1 =
      { ls with favorites := some (Text.json
        (if truthyProp favorites filePath then deleteProp favorites filePath
         else setProp favorites filePath true)) } := by
  have h1 := parse_orDefault_ok _ _ _ h
  unfold toggleFavorite
  rw [h1]
  rfl

theorem favoritesOf_json (ls : LocalStorage) (favorites : Favorites) :
    favoritesOf { ls with favorites := some (Text.json favorites) } = Except.ok favorites := rfl

theorem truthyProp_own (favorites : Favorites) (filePath : String)
    (h : filePath ∉ objectPrototypeKeys) :
    truthyProp favorites filePath = favorited favorites filePath := by
  unfold truthyProp favorited
  cases hl : List.lookup filePath favorites with
  | none => simpa using h
  | some v => cases v <;> simp

/-- Away from the names of `Object.prototype`, `toggleFavorite(p)` flips the presence of `p`
in the persisted favorites and leaves every other path as it was, and a second call restores
the persisted set, whatever the `querySelector` calls do. -/
theorem toggleFavorite_flips (ls : LocalStorage) (favorites : Favorites) (p : String)
    (q1 q2 : Except JSError (Option FavoriteBtn))
    (h : favoritesOf ls = Except.ok favorites) (hp : p ∉ objectPrototypeKeys) :
    ∃ f1 f2, favoritesOf (toggleFavorite p ls q1).1 = Except.ok f1 ∧
      (∀ q, favorited f1 q = if q = p then !favorited favorites p else favorited favorites q) ∧
      favoritesOf (toggleFavorite p (toggleFavorite p ls q1).1 q2).1 = Except.ok f2 ∧
      (∀ q, favorited f2 q = favorited favorites q) := by
  have step : ∀ (f : Favorites) (q : String),
      favorited (if truthyProp f p then deleteProp f p else setProp f p true) q =
        if q = p then !favorited f p else favorited f q := by
    intro f q
    rw [truthyProp_own f p hp]
    by_cases hf : favorited f p = true
    · rw [if_pos hf]
      unfold favorited at hf ⊢
      rw [lookup_deleteProp]
      by_cases hq : q = p
      · rw [if_pos hq, if_pos hq, hf]; rfl
      · rw [if_neg hq, if_neg hq]
    · rw [if_neg hf]
      have hf' : favorited f p = false := by simpa using hf
      unfold favorited at hf' ⊢
      rw [lookup_setProp]
      by_cases hq : q = p
      · rw [if_pos hq, if_pos hq, hf']; rfl
      · rw [if_neg hq, if_neg hq]
  have e1 := toggleFavorite_storage p ls favorites q1 h
  have e2 := toggleFavorite_storage p (toggleFavorite p ls q1).1 _ q2
    (by rw [e1]; exact favoritesOf_json _ _)
  refine ⟨_, _, by rw [e1]; exact favoritesOf_json _ _, step favorites,
    by rw [e2]; exact favoritesOf_json _ _, ?_⟩
  intro q
  rw [step]
  by_cases hq : q = p
  · rw [if_pos hq, step, if_pos rfl, hq]; simp
  · rw [if_neg hq, step, if_neg hq]

/-- C3 at the failing input: with nothing stored, `toggleFavorite("constructor")` finds the
inherited `Object.prototype.constructor` truthy, deletes nothing and persists the empty
object: the path was not in the favorites before and is not in them afterwards, while the
button is drawn as favorited. -/
theorem toggleFavorite_inherited_name :
    favoritesOf emptyStorage = Except.ok [] ∧
      favorited [] "constructor" = false ∧
      toggleFavorite "constructor" emptyStorage (Except.ok (some outlineBtn)) =
        ({ emptyStorage with favorites := some (Text.json []) },
          Except.ok (some { innerHTML := "<i class=\"fas fa-heart\"></i>",
                            classList := ["action-btn", "favorite-btn", "favorited"] })) ∧
      favoritesOf { emptyStorage with favorites := some (Text.json []) } = Except.ok [] := by
  exact ⟨rfl, rfl, rfl, rfl⟩

/-! ## Theorems: playlist and stored JSON -/

theorem addToPlaylistStorage_ok (filePath : String) (ls : LocalStorage) (playlist : Playlist)
    (h : playlistOf ls = Except.ok playlist) :
    addToPlaylistStorage filePath ls =
      Except.ok (if filePath ∈ playlist then ls
        else { ls with playlist := some (Text.json (playlist ++ [filePath])) }) := by
  have h1 := parse_orDefault_ok _ _ _ h
  unfold addToPlaylistStorage addToPlaylist
  rw [h1]
  by_cases hm : filePath ∈ playlist
  · simp [JSON.parse, hm, bind, Except.bind, pure, Except.pure, Except.map]
  · simp [JSON.parse, JSON.stringify, hm, bind, Except.bind, pure, Except.pure, Except.map]

theorem playlistOf_json (ls : LocalStorage) (playlist : Playlist) :
    playlistOf { ls with playlist := some (Text.json playlist) } = Except.ok playlist := rfl

theorem addToPlaylist_step (ls : LocalStorage) (L : Playlist) (p : String)
    (h : playlistOf ls = Except.ok L) :
    ∃ ls1 L1, addToPlaylistStorage p ls = Except.ok ls1 ∧
      playlistOf ls1 = Except.ok L1 ∧
      addToPlaylistStorage p ls1 = Except.ok ls1 ∧
      L <+: L1 ∧ p ∈ L1 ∧
      (p ∈ L → L1 = L ∧ ls1 = ls) ∧
      (p ∉ L → L1 = L ++ [p]) ∧
      (L.count p ≤ 1 → L1.count p = 1) ∧
      (L.Nodup → L1.Nodup) := by
  by_cases hm : p ∈ L
  · refine ⟨ls, L, ?_, h, ?_, List.prefix_refl L, hm, fun _ => ⟨rfl, rfl⟩,
      fun hn => absurd hm hn,
      fun hc => le_antisymm hc (List.count_pos_iff.mpr hm), fun hnd => hnd⟩
    · rw [addToPlaylistStorage_ok p ls L h, if_pos hm]
    · rw [addToPlaylistStorage_ok p ls L h, if_pos hm]
  · have hm1 : p ∈ L ++ [p] := by simp
    refine ⟨{ ls with playlist := some (Text.json (L ++ [p])) }, L ++ [p], ?_, rfl, ?_,
      List.prefix_append L [p], hm1, fun hin => absurd hin hm, fun _ => rfl, fun _ => ?_,
      fun hnd => ?_⟩
    · rw [addToPlaylistStorage_ok p ls L h, if_neg hm]
    · rw [addToPlaylistStorage_ok p _ (L ++ [p]) (playlistOf_json _ _), if_pos hm1]
    · rw [List.count_append, List.count_eq_zero_of_not_mem hm]
      simp
    · rw [List.nodup_append]
      refine ⟨hnd, List.nodup_singleton p, ?_⟩
      intro a ha hb
      rw [List.mem_singleton] at hb
      exact hm (hb ▸ ha)

/-- C4: when the persisted playlist is `L`, `addToPlaylist(p)` succeeds and a second
`addToPlaylist(p)` leaves the storage exactly as the first one left it. The resulting
playlist has `L` as a prefix; it is `L` itself when `p` was in `L` and `L` followed by `p`
otherwise. It holds `p` exactly once whenever `L` held `p` at most once, and it is
duplicate-free whenever `L` was. -/
theorem addToPlaylist_idempotent (ls : LocalStorage) (L : Playlist) (p : String)
    (h : playlistOf ls = Except.ok L) :
    ∃ ls1 L1, addToPlaylistStorage p ls = Except.ok ls1 ∧
      playlistOf ls1 = Except.ok L1 ∧
      addToPlaylistStorage p ls1 = Except.ok ls1 ∧
      L <+: L1 ∧ p ∈ L1 ∧
      (p ∈ L → L1 = L ∧ ls1 = ls) ∧
      (p ∉ L → L1 = L ++ [p]) ∧
      (L.count p ≤ 1 → L1.count p = 1) ∧
      (L.Nodup → L1.Nodup) :=
  addToPlaylist_step ls L p h

/-- Witness for C4: adding `b.mp3` to the stored playlist `[a.mp4]`. -/
theorem addToPlaylist_idempotent_witness :
    ∃ ls1 L1, addToPlaylistStorage "b.mp3"
        { emptyStorage with playlist := some (Text.json ["a.mp4"]) } = Except.ok ls1 ∧
      playlistOf ls1 = Except.ok L1 ∧
      addToPlaylistStorage "b.mp3" ls1 = Except.ok ls1 ∧
      ["a.mp4"] <+: L1 ∧ "b.mp3" ∈ L1 ∧ L1.count "b.mp3" = 1 ∧ L1.Nodup := by
  obtain ⟨ls1, L1, h1, h2, h3, h4, h5, _, _, h8, h9⟩ :=
    addToPlaylist_idempotent { emptyStorage with playlist := some (Text.json ["a.mp4"]) }
      ["a.mp4"] "b.mp3" rfl
  exact ⟨ls1, L1, h1, h2, h3, h4, h5, h8 (by decide), h9 (by decide)⟩

/-- Every playlist the controller builds up from an empty storage is duplicate-free. -/
theorem addAllToPlaylist_nodup (paths : List String) :
    ∀ (ls : LocalStorage) (L : Playlist), playlistOf ls = Except.ok L → L.Nodup →
      ∃ ls1 L1, addAllToPlaylist paths ls = Except.ok ls1 ∧ playlistOf ls1 = Except.ok L1 ∧
        L1.Nodup := by
  induction paths with
  | nil => intro ls L h hnd; exact ⟨ls, L, rfl, h, hnd⟩
  | cons p ps ih =>
    intro ls L h hnd
    obtain ⟨ls1, L1, h1, h2, _, _, _, _, _, _, h9⟩ := addToPlaylist_step ls L p h
    obtain ⟨ls2, L2, h3, h4, h5⟩ := ih ls1 L1 h2 (h9 hnd)
    refine ⟨ls2, L2, ?_, h4, h5⟩
    unfold addAllToPlaylist at h3 ⊢
    rw [List.foldlM_cons, h1]
    exact h3

theorem updateFavoriteUI_json (p : String) (ls : LocalStorage) (favorites : Favorites)
    (btn : Option FavoriteBtn) :
    ∃ r, updateFavoriteUI p { ls with favorites := some (Text.json favorites) }
      (Except.ok btn) = Except.ok r := by
  cases btn with
  | none => exact ⟨none, rfl⟩
  | some b =>
    by_cases ht : truthyProp favorites p = true
    · refine ⟨some { innerHTML := "<i class=\"fas fa-heart\"></i>",
                     classList := classListAdd b.classList "favorited" }, ?_⟩
      simp only [updateFavoriteUI, orDefault, JSON.parse, bind, Except.bind, ht, pure,
        Except.pure, if_true]
    · refine ⟨some { innerHTML := "<i class=\"far fa-heart\"></i>",
                     classList := classListRemove b.classList "favorited" }, ?_⟩
      simp only [updateFavoriteUI, orDefault, JSON.parse, bind, Except.bind, ht, pure,
        Except.pure, if_false, Bool.false_eq_true]

theorem toggleFavorite_json (p : String) (ls : LocalStorage) (favorites : Favorites)
    (btn : Option FavoriteBtn) :
    ∃ r, (toggleFavorite p { ls with favorites := some (Text.json favorites) }
      (Except.ok btn)).2 = Except.ok r :=
  updateFavoriteUI_json p ls
    (if truthyProp favorites p then deleteProp favorites p else setProp favorites p true) btn

/-- An exception of `document.querySelector` ends `updateFavoriteUI` and `toggleFavorite`
whenever the stored favorites parse; `toggleFavorite` has written the toggled favorites by
then. -/
theorem querySelector_throw_propagates (p : String) (ls : LocalStorage) (favorites : Favorites)
    (err : JSError) (h : favoritesOf ls = Except.ok favorites) :
    updateFavoriteUI p ls (Except.error err) = Except.error err ∧
      toggleFavorite p ls (Except.error err) =
        ({ ls with favorites := some (Text.json
            (if truthyProp favorites p then deleteProp favorites p
             else setProp favorites p true)) }, Except.error err) := by
  have h1 := parse_orDefault_ok _ _ _ h
  constructor
  · unfold updateFavoriteUI; rw [h1]; rfl
  · unfold toggleFavorite; rw [h1]; rfl

/-- C7, as stated, fails: with a non-empty string that is not JSON under `favorites` and
`playlist`, each of the three methods ends in the `SyntaxError` of `JSON.parse`, on a page
where the `querySelector` call itself succeeds, and nothing is written. -/
theorem malformed_json_throws :
    corruptStorage.favorites = some Text.malformed ∧
      corruptStorage.playlist = some Text.malformed ∧
      toggleFavorite "a.mp4" corruptStorage (Except.ok (some outlineBtn)) =
        (corruptStorage, Except.error JSError.SyntaxError) ∧
      updateFavoriteUI "a.mp4" corruptStorage (Except.ok (some outlineBtn)) =
        Except.error JSError.SyntaxError ∧
      addToPlaylist "a.mp4" corruptStorage = Except.error JSError.SyntaxError :=
  ⟨rfl, rfl, rfl, rfl, rfl⟩

/-- C7, amended: when the key `favorites` is absent or holds the empty string,
`toggleFavorite` and `updateFavoriteUI` act as on a stored empty object, `toggleFavorite`
persists the toggled empty object, and neither throws provided the `querySelector` call on
the selector built from the path does not throw; when the key `playlist` is absent or holds
the empty string, `addToPlaylist` does not throw and stores the one-element playlist. When
the key holds any other string that is not well-formed JSON, the method ends in the
`SyntaxError` thrown by `JSON.parse`, whatever `querySelector` would do, and the storage is
left as it was. -/
theorem stored_json_fallback (p : String) (ls : LocalStorage)
    (queried : Except JSError (Option FavoriteBtn)) :
    ((ls.favorites = none ∨ ls.favorites = some Text.empty) →
        toggleFavorite p ls queried =
          toggleFavorite p { ls with favorites := some (Text.json []) } queried ∧
        updateFavoriteUI p ls queried =
          updateFavoriteUI p { ls with favorites := some (Text.json []) } queried ∧
        (toggleFavorite p ls queried).1 =
          { ls with favorites := some (Text.json
              (if p ∈ objectPrototypeKeys then [] else [(p, true)])) } ∧
        (∀ btn, queried = Except.ok btn →
          (∃ r, (toggleFavorite p ls queried).2 = Except.ok r) ∧
          (∃ r, updateFavoriteUI p ls queried = Except.ok r))) ∧
      ((ls.playlist = none ∨ ls.playlist = some Text.empty) →
        addToPlaylist p ls =
          Except.ok ({ ls with playlist := some (Text.json [p]) }, ["Added to playlist"])) ∧
      (ls.favorites = some Text.malformed →
        toggleFavorite p ls queried = (ls, Except.error JSError.SyntaxError) ∧
        updateFavoriteUI p ls queried = Except.error JSError.SyntaxError) ∧
      (ls.playlist = some Text.malformed →
        addToPlaylist p ls = Except.error JSError.SyntaxError) := by
  refine ⟨?_, ?_, ?_, ?_⟩
  · intro h
    have hd : orDefault ls.favorites [] = Text.json [] := by
      rcases h with h | h <;> rw [h] <;> rfl
    have ht : toggleFavorite p ls queried =
        toggleFavorite p { ls with favorites := some (Text.json []) } queried := by
      unfold toggleFavorite; rw [hd]; rfl
    have hu : updateFavoriteUI p ls queried =
        updateFavoriteUI p { ls with favorites := some (Text.json []) } queried := by
      unfold updateFavoriteUI; rw [hd]; rfl
    refine ⟨ht, hu, ?_, ?_⟩
    · rw [toggleFavorite_storage p ls [] queried (by unfold favoritesOf; rw [hd]; rfl)]
      by_cases hk : p ∈ objectPrototypeKeys
      · have hc : objectPrototypeKeys.contains p = true := by simpa using hk
        simp [truthyProp, deleteProp, hk, hc]
      · have hc : objectPrototypeKeys.contains p = false := by simpa using hk
        simp [truthyProp, setProp, hk, hc]
    · intro btn hq
      subst hq
      rw [ht, hu]
      exact ⟨toggleFavorite_json p ls [] btn, updateFavoriteUI_json p ls [] btn⟩
  · intro h
    have hd : orDefault ls.playlist [] = Text.json [] := by
      rcases h with h | h <;> rw [h] <;> rfl
    unfold addToPlaylist
    rw [hd]
    rfl
  · intro h
    have hd : orDefault ls.favorites [] = Text.malformed := by rw [h]; rfl
    constructor
    · unfold toggleFavorite; rw [hd]; rfl
    · unfold updateFavoriteUI; rw [hd]; rfl
  · intro h
    have hd : orDefault ls.playlist [] = Text.malformed := by rw [h]; rfl
    unfold addToPlaylist; rw [hd]; rfl

/-- Witness for C7, amended: on an empty storage the first favorite is stored and the button
redrawn, and the first playlist entry is stored; on the corrupt storage `addToPlaylist`
throws. -/
theorem stored_json_fallback_witness :
    (∃ r, (toggleFavorite "a.mp4" emptyStorage (Except.ok (some outlineBtn))).2 =
        Except.ok r) ∧
      (toggleFavorite "a.mp4" emptyStorage (Except.ok (some outlineBtn))).1 =
        { emptyStorage with favorites := some (Text.json
            (if "a.mp4" ∈ objectPrototypeKeys then [] else [("a.mp4", true)])) } ∧
      addToPlaylist "a.mp4" emptyStorage =
        Except.ok ({ emptyStorage with playlist := some (Text.json ["a.mp4"]) },
          ["Added to playlist"]) ∧
      addToPlaylist "a.mp4" corruptStorage = Except.error JSError.SyntaxError :=
  have h := stored_json_fallback "a.mp4" emptyStorage (Except.ok (some outlineBtn))
  ⟨((h.1 (Or.inl rfl)).2.2.2 (some outlineBtn) rfl).1, (h.1 (Or.inl rfl)).2.2.1,
   h.2.1 (Or.inl rfl),
   (stored_json_fallback "a.mp4" corruptStorage (Except.ok none)).2.2.2 rfl⟩

/-! ## Theorems: view mode and search -/

theorem mem_classListAdd (classList : List String) (token : String) :
    token ∈ classListAdd classList token := by
  unfold classListAdd
  split
  · assumption
  · simp

/-- C6, as stated, fails: with the stray value `tiles` under `viewPreference`,
`restoreViewPreference` puts a fresh page in list mode, not in grid mode. -/
theorem restoreViewPreference_stray_value :
    strayViewStorage.viewPreference = some "tiles" ∧
      restoreViewPreference strayViewStorage freshDOM =
        Except.ok { mediaView := some ["media-container", "list-view"],
                    viewBtns := [["view-btn"], ["view-btn", "active"]] } ∧
      listSelected { mediaView := some ["media-container", "list-view"],
                     viewBtns := [["view-btn"], ["view-btn", "active"]] } = true ∧
      gridSelected { mediaView := some ["media-container", "list-view"],
                     viewBtns := [["view-btn"], ["view-btn", "active"]] } = false := by
  exact ⟨rfl, rfl, by decide, by decide⟩

/-- C6, amended: on a page with the `media-view` element and both toggles,
`restoreViewPreference` selects grid mode (adds `grid-view`, marks the first toggle active)
exactly when `viewPreference` is absent, empty or `grid`; for every other stored value, `list`
and any stray value alike, it selects list mode (adds `list-view`, marks the second toggle
active). `setView('list')` stores `list`, so a reload then restores list mode. -/
theorem restoreViewPreference_modes (ls : LocalStorage) (dom : ViewDOM)
    (classList b0 b1 : List String) (rest : List (List String))
    (hm : dom.mediaView = some classList) (hb : dom.viewBtns = b0 :: b1 :: rest) :
    ((ls.viewPreference = none ∨ ls.viewPreference = some "" ∨
          ls.viewPreference = some "grid") →
        restoreViewPreference ls dom =
          Except.ok { mediaView := some (classListAdd classList "grid-view"),
                      viewBtns := classListAdd b0 "active" :: b1 :: rest } ∧
        gridSelected { mediaView := some (classListAdd classList "grid-view"),
                       viewBtns := classListAdd b0 "active" :: b1 :: rest } = true) ∧
      (∀ stored, ls.viewPreference = some stored → stored ≠ "" → stored ≠ "grid" →
        restoreViewPreference ls dom =
          Except.ok { mediaView := some (classListAdd classList "list-view"),
                      viewBtns := b0 :: classListAdd b1 "active" :: rest } ∧
        listSelected { mediaView := some (classListAdd classList "list-view"),
                       viewBtns := b0 :: classListAdd b1 "active" :: rest } = true) ∧
      (∀ (target : Option ℕ) (ls0 : LocalStorage) (dom0 : ViewDOM), dom0.mediaView ≠ none →
        ∃ ls1 dom1 dom2, setView "list" target ls0 dom0 = Except.ok (ls1, dom1) ∧
          ls1.viewPreference = some "list" ∧
          restoreViewPreference ls1 dom = Except.ok dom2 ∧ listSelected dom2 = true) := by
  have hgrid : preferredView ls = "grid" →
      restoreViewPreference ls dom =
        Except.ok { mediaView := some (classListAdd classList "grid-view"),
                    viewBtns := classListAdd b0 "active" :: b1 :: rest } := by
    intro hp
    simp [restoreViewPreference, hm, hb, hp]
    rfl
  have hlist : ∀ ls' : LocalStorage, preferredView ls' ≠ "grid" →
      restoreViewPreference ls' dom =
        Except.ok { mediaView := some (classListAdd classList "list-view"),
                    viewBtns := b0 :: classListAdd b1 "active" :: rest } := by
    intro ls' hp
    simp [restoreViewPreference, hm, hb, hp]
    rfl
  have hsel : listSelected
      ⟨some (classListAdd classList "list-view"), b0 :: classListAdd b1 "active" :: rest⟩ =
        true := by
    simp [listSelected, modeSelected, mem_classListAdd]
  refine ⟨?_, ?_, ?_⟩
  · intro h
    refine ⟨hgrid ?_, by simp [gridSelected, modeSelected, mem_classListAdd]⟩
    rcases h with h | h | h <;> simp [preferredView, h]
  · intro stored hs hne hng
    refine ⟨hlist ls ?_, hsel⟩
    simp [preferredView, hs, hne, hng]
  · intro target ls0 dom0 hm0
    obtain ⟨cl0, hcl0⟩ := Option.ne_none_iff_exists'.mp hm0
    have hset : ∃ dom1, setView "list" target ls0 dom0 =
        Except.ok ({ ls0 with viewPreference := some "list" }, dom1) := by
      simp only [setView, hcl0]
      exact ⟨_, rfl⟩
    obtain ⟨dom1, hdom1⟩ := hset
    exact ⟨{ ls0 with viewPreference := some "list" }, dom1, _, hdom1, rfl,
      hlist _ (by simp [preferredView]), hsel⟩

/-- Witness for C6, amended: a fresh page with nothing stored comes up in grid mode, and
after `setView('list')` a fresh page comes up in list mode. -/
theorem restoreViewPreference_modes_witness :
    gridSelected { mediaView := some (classListAdd ["media-container"] "grid-view"),
                   viewBtns := classListAdd ["view-btn"] "active" :: ["view-btn"] :: [] } =
        true ∧
      ∃ ls1 dom1 dom2, setView "list" (some 1) emptyStorage freshDOM = Except.ok (ls1, dom1) ∧
        ls1.viewPreference = some "list" ∧
        restoreViewPreference ls1 freshDOM = Except.ok dom2 ∧ listSelected dom2 = true :=
  have h := restoreViewPreference_modes emptyStorage freshDOM ["media-container"] ["view-btn"]
    ["view-btn"] [] rfl rfl
  ⟨(h.1 (Or.inl rfl)).2, h.2.2 (some 1) emptyStorage freshDOM (by decide)⟩

/-- C5 at the failing input: the query `video` hides a card whose declared type is written
`Video`, although that type contains the query when case is ignored. -/
theorem searchMedia_type_case_sensitive :
    specVisible "video" capitalTypeCard = true ∧
      searchMedia "video" [capitalTypeCard] = [{ capitalTypeCard with display := "none" }] := by
  exact ⟨by decide, by decide⟩

theorem includes_nil (s : String) : includes s "" = true := by
  unfold includes
  rw [List.any_eq_true]
  exact ⟨[], by simp, by simp⟩

/-- What `searchMedia` computes: a card is shown exactly when its lower-cased title, or its
declared type as written, contains the lower-cased query; nothing but `display` changes. -/
theorem searchMedia_display (query : String) (mediaCards : List MediaCard) :
    searchMedia query mediaCards = mediaCards.map (fun card =>
      { card with display :=
          if includes (toLowerCase card.title) (toLowerCase query) = true ∨
             includes card.dataType (toLowerCase query) = true
          then "block" else "none" }) := by
  unfold searchMedia
  apply List.map_congr_left
  intro card _
  by_cases h1 : includes (toLowerCase card.title) (toLowerCase query) = true <;>
    by_cases h2 : includes card.dataType (toLowerCase query) = true <;>
    simp [h1, h2]

/-- The search examples of the spec, and the empty query. -/
theorem searchMedia_examples :
    (searchMedia "sun" exampleCards).map MediaCard.display = ["block", "none"] ∧
      (searchMedia "audio" exampleCards).map MediaCard.display = ["none", "block"] ∧
      (searchMedia "" exampleCards).map MediaCard.display = ["block", "block"] ∧
      ∀ cards : List MediaCard, ∀ card ∈ searchMedia "" cards, card.display = "block" := by
  refine ⟨by decide, by decide, by decide, ?_⟩
  intro cards card hc
  rw [searchMedia_display] at hc
  obtain ⟨c, _, rfl⟩ := List.mem_map.mp hc
  have : toLowerCase "" = "" := by decide
  simp [this, includes_nil]

/-- On cards whose declared type is written in lower case, `searchMedia` shows exactly the
cards the spec asks for. -/
theorem searchMedia_lowercase_types (query : String) (mediaCards : List MediaCard)
    (h : ∀ card ∈ mediaCards, toLowerCase card.dataType = card.dataType) :
    searchMedia query mediaCards = mediaCards.map (fun card =>
      { card with display := if specVisible query card then "block" else "none" }) := by
  unfold searchMedia specVisible
  apply List.map_congr_left
  intro card hc
  simp only [h card hc]
  split <;> rfl

end LightMedia
